import Mathlib

/-!
Shallow embedding of the authentication/session core of the Mist backend:
password hashing and verification (`app/core/security.py`, `PasswordManager`),
JWT issuance and verification (`app/core/security.py`, `TokenManager` and the
module-level convenience functions), and the user service orchestration
(`app/services/user.py`, `UserService`).

Modelling conventions:
* Time is an explicit integer parameter `now` (Unix seconds); the Python code
  reads the clock via `datetime.now` inside the functions.
* The bcrypt library is modelled symbolically (perfect-hash/Dolev-Yao style):
  a stored hash records the salt and the password it digests; `checkpw`
  recomputes with the embedded salt and compares.  Exceptions raised by the
  library are modelled with `Except`, including the `ValueError` that
  `hashpw` raises on a password containing a NUL byte.
* The python-jose JWT library is likewise modelled symbolically: a signature
  is a symbolic MAC recording the algorithm, the key, and the signed content;
  `jwt.decode` checks the header algorithm against the allowed list, the
  signature, and the `exp` claim, exactly in the fallible `Except` style of
  the library (every failure is a `JWTError`).
* The SQLAlchemy user store is a `List User`; the global uniqueness
  constraint on `username` (declared `unique=True` in `app/models/user.py`)
  makes the store's insert fail with an `IntegrityError` when the username is
  already present, and the `nullable=False` constraint on `timezone` makes a
  commit writing NULL into that column fail with an `IntegrityError` as well.
* A Pydantic `Optional[str]` request field distinguishes three states —
  absent from the body, explicit JSON `null`, or a string value — because
  `model_dump(exclude_unset=True)` drops only the first; `FieldUpdate`
  carries that three-way distinction.
* Fresh randomness (bcrypt's `gensalt`, ULID generation) is passed in as an
  explicit parameter.
-/

deriving instance DecidableEq for Except

namespace Mist

/-- Process-wide configuration (`app/config.py`, `Settings`): JWT secret key,
signing algorithm name, and default access-token lifetime in minutes. -/
structure Settings where
  jwt_secret_key : String
  jwt_algorithm : String
  jwt_access_token_expire_min : Int
deriving DecidableEq

/-! ## Password hashing (`app/core/security.py`, `PasswordManager`) -/

/-- A stored password-hash string: either a self-describing bcrypt hash
(symbolically: the salt together with the password it digests), or an
arbitrary string that does not parse as a bcrypt hash. -/
inductive StoredHash where
  | bcrypt (salt : Nat) (pw : String)
  | malformed (raw : String)
deriving DecidableEq

/-- Whether a stored string parses as a bcrypt hash. -/
def StoredHash.isWellFormed : StoredHash → Bool
  | .bcrypt _ _ => true
  | .malformed _ => false

/-- Exceptions the bcrypt library can raise: `invalidSalt` from `checkpw` on
an unparsable stored hash, and `nulBytePassword` — the `ValueError` that
`hashpw` raises when the encoded password contains a NUL byte (a UTF-8
encoding contains the byte 0x00 exactly when the string contains the
character U+0000). -/
inductive BcryptError where
  | invalidSalt
  | nulBytePassword
deriving DecidableEq

/-- Whether the UTF-8 encoding of the string contains a NUL byte, i.e. the
string contains the character U+0000. -/
def has_nul_byte (s : String) : Bool :=
  s.data.any (fun c => c.toNat == 0)

/-- The digest computation of `bcrypt.hashpw(password, salt)` on an accepted
(NUL-free) password: symbolically, the salt together with the digested
password, as a self-describing stored string. -/
def bcrypt_digest (password : String) (salt : Nat) : StoredHash :=
  .bcrypt salt password

/-- `bcrypt.hashpw(password, salt)` as implemented by pyca/bcrypt: the
password is validated before digesting — a NUL byte raises `ValueError` — and
an accepted password is digested under the salt.  (Over-72-byte handling is
version-dependent — silent truncation in bcrypt < 5.0 — and lies outside the
"reasonable length" inputs considered here; the schema layer caps passwords
at 20 characters anyway.) -/
def bcrypt_hashpw (password : String) (salt : Nat) : Except BcryptError StoredHash :=
  if has_nul_byte password then .error .nulBytePassword
  else .ok (bcrypt_digest password salt)

/-- `bcrypt.checkpw(password, hashed)`: parse the stored hash, recompute the
digest with the embedded salt, and compare; raises on an unparsable hash. -/
def bcrypt_checkpw (password : String) (hashed : StoredHash) : Except BcryptError Bool :=
  match hashed with
  | .bcrypt _ pw => .ok (password == pw)
  | .malformed _ => .error .invalidSalt

/-- The stored hash produced by a successful run of
`PasswordManager.hash_password` with the given salt: the digest of the
password under the salt.  The full call, including the library's input
validation that `hash_password` does not catch, is `hash_password_call`. -/
def hash_password (salt : Nat) (password : String) : StoredHash :=
  bcrypt_digest password salt

/-- A call of `PasswordManager.hash_password` as executed: generate a salt
(passed explicitly here) and call `bcrypt.hashpw`.  The function body has no
`try/except`, so the `ValueError` that `hashpw` raises on a NUL-containing
password propagates to the caller; on an accepted password the result is
exactly `hash_password`. -/
def hash_password_call (salt : Nat) (password : String) : Except BcryptError StoredHash :=
  bcrypt_hashpw password salt

/-- `PasswordManager.verify_password`: call `bcrypt.checkpw` under
`try/except`, returning `false` on any exception. -/
def verify_password (plain_password : String) (hashed_password : StoredHash) : Bool :=
  match bcrypt_checkpw plain_password hashed_password with
  | .ok b => b
  | .error _ => false

/-! ## JWT issuance and verification (`app/core/security.py`, `TokenManager`) -/

/-- The JOSE header of a token; the field that matters for verification is the
declared algorithm (`typ` is constant). -/
structure JoseHeader where
  alg : String
deriving DecidableEq

/-- The claim set carried in a token payload: the `sub` (subject) claim and
the `exp` (expiry, Unix seconds) claim, each possibly absent. -/
structure JosePayload where
  sub : Option String := none
  exp : Option Int := none
deriving DecidableEq

/-- A symbolic MAC: the signature produced by signing `header.payload` with
`key` under algorithm `alg`.  Two signatures are equal exactly when algorithm,
key, and signed content all agree. -/
structure JwsSignature where
  alg : String
  key : String
  header : JoseHeader
  payload : JosePayload
deriving DecidableEq

/-- A token string on the wire: either three well-formed dot-separated
segments (header, payload, signature) or a string that does not parse. -/
inductive Jwt where
  | malformed (raw : String)
  | signed (header : JoseHeader) (payload : JosePayload) (sig : JwsSignature)
deriving DecidableEq

/-- The `JWTError` exception hierarchy of python-jose, as observed through
`jwt.decode` (which re-raises every `JWSError` as a `JWTError`). -/
inductive JWTError where
  | decodeError
  | algNotAllowed
  | signatureMismatch
  | expired
deriving DecidableEq

/-- `jose.jwt.encode(claims, key, algorithm)`: serialize the claims and sign
them with the key under the given algorithm. -/
def jose_encode (claims : JosePayload) (key : String) (algorithm : String) : Jwt :=
  .signed ⟨algorithm⟩ claims ⟨algorithm, key, ⟨algorithm⟩, claims⟩

/-- `jose.jwt.decode(token, key, algorithms)` at time `now`: parse the token,
reject a header algorithm outside the allowed list, verify the signature with
the supplied key, then validate the `exp` claim (expired iff `exp < now`,
matching jose's leeway-0 check); any failure raises a `JWTError`. -/
def jose_decode (token : Jwt) (key : String) (algorithms : List String) (now : Int) :
    Except JWTError JosePayload :=
  match token with
  | .malformed _ => .error .decodeError
  | .signed header payload sig =>
    if header.alg ∈ algorithms then
      if sig = JwsSignature.mk header.alg key header payload then
        match payload.exp with
        | some e => if e < now then .error .expired else .ok payload
        | none => .ok payload
      else .error .signatureMismatch
    else .error .algNotAllowed

/-- `TokenManager.create_access_token(data, expires_delta)` at time `now`:
copy the claims, set `exp = now + expires_delta` (defaulting to the configured
minutes), and sign with the configured secret key and algorithm.
`expires_delta` is in seconds (`timedelta`). -/
def TokenManager.create_access_token (cfg : Settings) (now : Int) (data : JosePayload)
    (expires_delta : Option Int) : Jwt :=
  let expire : Int :=
    match expires_delta with
    | some d => now + d
    | none => now + cfg.jwt_access_token_expire_min * 60
  jose_encode { data with exp := some expire } cfg.jwt_secret_key cfg.jwt_algorithm

/-- `TokenManager.verify_token` at time `now`: decode with the configured
secret key and the singleton allowed-algorithm list, catching `JWTError` and
returning `none` on any failure. -/
def TokenManager.verify_token (cfg : Settings) (now : Int) (token : Jwt) : Option JosePayload :=
  match jose_decode token cfg.jwt_secret_key [cfg.jwt_algorithm] now with
  | .ok payload => some payload
  | .error _ => none

/-- `TokenManager.get_user_id_from_token`: verify, then extract the `sub`
claim (`payload.get("sub")`, which is `none` when the claim is absent). -/
def TokenManager.get_user_id_from_token (cfg : Settings) (now : Int) (token : Jwt) :
    Option String :=
  match TokenManager.verify_token cfg now token with
  | none => none
  | some payload => payload.sub

/-- Module-level `create_access_token(user_id, expires_delta)`: issue a token
whose claim set is `{"sub": user_id}` plus the expiry. -/
def create_access_token (cfg : Settings) (now : Int) (user_id : String)
    (expires_delta : Option Int) : Jwt :=
  TokenManager.create_access_token cfg now { sub := some user_id } expires_delta

/-- Module-level `verify_access_token(token)`: alias of
`TokenManager.get_user_id_from_token`. -/
def verify_access_token (cfg : Settings) (now : Int) (token : Jwt) : Option String :=
  TokenManager.get_user_id_from_token cfg now token

/-! ## User store and service (`app/models/user.py`, `app/services/user.py`) -/

/-- A persisted user row (`app/models/user.py`, `User`): ULID primary key,
unique username, bcrypt password hash, timezone, active flag. -/
structure User where
  user_id : String
  username : String
  password_hash : StoredHash
  timezone : String
  is_active : Bool
deriving DecidableEq

/-- Registration request (`app/schemas/user.py`, `UserCreate`). -/
structure UserCreate where
  username : String
  password : String
  timezone : String
deriving DecidableEq

/-- The state of a Pydantic `Optional[str]` field in a request body: absent
from the body (excluded by `model_dump(exclude_unset=True)`), present as an
explicit JSON `null` (retained by `exclude_unset`), or present as a value. -/
inductive FieldUpdate (α : Type) where
  | unset
  | null
  | value (a : α)
deriving DecidableEq

/-- Partial-update request (`app/schemas/user.py`, `UserUpdate`): the only
updatable field is `timezone`, an `Optional[str]` that a client may omit,
set to `null`, or set to a string. -/
structure UserUpdate where
  timezone : FieldUpdate String := .unset
deriving DecidableEq

/-- A FastAPI `HTTPException`: status code, detail message, extra headers. -/
structure HTTPException where
  status : Nat
  detail : String
  headers : List (String × String) := []
deriving DecidableEq

/-- The store-level integrity errors: a violated uniqueness constraint
(duplicate username on insert) or a violated NOT NULL constraint (NULL
written to a `nullable=False` column). -/
inductive IntegrityError where
  | uniqueViolation
  | notNullViolation
deriving DecidableEq

/-- `UserService.get_user_by_username`: first row whose username matches. -/
def get_user_by_username (db : List User) (username : String) : Option User :=
  db.find? fun u => u.username == username

/-- `UserService.get_user_by_id`: first row whose primary key matches. -/
def get_user_by_id (db : List User) (user_id : String) : Option User :=
  db.find? fun u => u.user_id == user_id

/-- The store's `add`/`commit` on a table whose `username` column is declared
`unique=True`: raises `IntegrityError` iff the username is already present,
otherwise appends the row. -/
def db_insert (db : List User) (u : User) : Except IntegrityError (List User) :=
  if db.any (fun x => x.username == u.username) then .error .uniqueViolation
  else .ok (db ++ [u])

/-- The pre-check rejection raised by `UserService.create_user` (409 with an
`error_code` header). -/
def username_taken_exc : HTTPException :=
  ⟨409, "用户名已存在", [("error_code", "USERNAME_ALREADY_EXISTS")]⟩

/-- The rejection raised by `UserService.create_user` when the store's commit
raises `IntegrityError` (409, after rollback). -/
def create_failed_exc : HTTPException :=
  ⟨409, "用户创建失败，用户名可能已存在", []⟩

/-- The `try: add/commit ... except IntegrityError: rollback; raise 409` block
of `UserService.create_user`: on success the new row is in the store; on a
uniqueness violation the session is rolled back (store unchanged) and the 409
conflict is raised.  The first component is the resulting store state. -/
def UserService.create_user_persist (db : List User) (db_user : User) :
    List User × Except HTTPException User :=
  match db_insert db db_user with
  | .ok db2 => (db2, .ok db_user)
  | .error _ => (db, .error create_failed_exc)

/-- `UserService.create_user`: reject (409) if the username already exists;
otherwise build the row with a hashed password and `is_active = True` and
persist it.  `salt` is bcrypt's fresh salt and `new_user_id` the generated
ULID. -/
def UserService.create_user (salt : Nat) (new_user_id : String) (db : List User)
    (user_data : UserCreate) : List User × Except HTTPException User :=
  if (get_user_by_username db user_data.username).isSome then
    (db, .error username_taken_exc)
  else
    UserService.create_user_persist db
      ⟨new_user_id, user_data.username, hash_password salt user_data.password,
        user_data.timezone, true⟩

/-- `UserService.authenticate_user`: look up by username; `none` if absent or
if the password does not verify against the stored hash. -/
def UserService.authenticate_user (db : List User) (username : String) (password : String) :
    Option User :=
  match get_user_by_username db username with
  | none => none
  | some user =>
    if verify_password password user.password_hash then some user else none

/-- The 401 raised by `UserService.login_user` when authentication fails —
one raise site, identical whether the username is unknown or the password is
wrong. -/
def bad_credentials_exc : HTTPException :=
  ⟨401, "用户名或密码错误", [("WWW-Authenticate", "Bearer")]⟩

/-- The 403 raised by `UserService.login_user` for a disabled account. -/
def disabled_exc : HTTPException :=
  ⟨403, "用户账户已被禁用", []⟩

/-- The successful login response (`LoginResponse` with its `Token` part). -/
structure LoginResult where
  user : User
  access_token : Jwt
  token_type : String
  expires_in : Int
deriving DecidableEq

/-- `UserService.login_user`: authenticate; 401 on failure; 403 if the user
is disabled; otherwise issue a token for `user_id` with the configured
lifetime and return it with the user. -/
def UserService.login_user (cfg : Settings) (now : Int) (db : List User)
    (username : String) (password : String) : Except HTTPException LoginResult :=
  match UserService.authenticate_user db username password with
  | none => .error bad_credentials_exc
  | some user =>
    if !user.is_active then .error disabled_exc
    else
      .ok ⟨user,
        create_access_token cfg now user.user_id (some (cfg.jwt_access_token_expire_min * 60)),
        "bearer",
        cfg.jwt_access_token_expire_min * 60⟩

/-- The 404 raised by `UserService.update_user` for an unknown user id. -/
def not_found_exc : HTTPException :=
  ⟨404, "用户不存在", []⟩

/-- The 400 raised by `UserService.update_user` when the store's commit of
the mutated row raises `IntegrityError` (after rollback). -/
def update_failed_exc : HTTPException :=
  ⟨400, "用户信息更新失败", []⟩

/-- The value the `setattr` loop of `UserService.update_user` leaves in the
row's `timezone` column — exactly the fields present in
`model_dump(exclude_unset=True)` are written: the current value when the
field was unset, SQL NULL (`none`) for an explicitly supplied `null` (which
`exclude_unset` retains), and the supplied string otherwise. -/
def written_timezone (user : User) (upd : UserUpdate) : Option String :=
  match upd.timezone with
  | .unset => some user.timezone
  | .null => none
  | .value tz => some tz

/-- The store's `commit` of the mutated row: the `timezone` column is
declared `nullable=False` (`app/models/user.py`), so committing a NULL
timezone raises `IntegrityError`; otherwise the row with the written value is
saved. -/
def db_commit_update (user : User) (upd : UserUpdate) : Except IntegrityError User :=
  match written_timezone user upd with
  | none => .error .notNullViolation
  | some tz => .ok { user with timezone := tz }

/-- `UserService.update_user`: 404 (store untouched) if the id is unknown;
otherwise write only the supplied fields into the found row and commit —
rolling back (store unchanged) and raising the 400 when the commit raises
`IntegrityError`. -/
def UserService.update_user (db : List User) (user_id : String) (user_update : UserUpdate) :
    List User × Except HTTPException User :=
  match get_user_by_id db user_id with
  | none => (db, .error not_found_exc)
  | some user =>
    match db_commit_update user user_update with
    | .error _ => (db, .error update_failed_exc)
    | .ok user2 =>
      (db.map (fun x => if x.user_id == user_id then user2 else x), .ok user2)

/-! ## Concrete fixtures for witnesses -/

/-- An active example user whose password `pw1` was hashed with salt 7. -/
def aliceEx : User := ⟨"id1", "alice", StoredHash.bcrypt 7 "pw1", "UTC", true⟩

/-- A disabled example user whose password `pw2` was hashed with salt 8. -/
def carolEx : User := ⟨"id2", "carol", StoredHash.bcrypt 8 "pw2", "UTC", false⟩

/-- An example user store holding the two users above. -/
def dbEx : List User := [aliceEx, carolEx]

/-! ## Theorems -/

/-- C1: for every subject `s`, issuing a token for `s` (default lifetime, with
a non-negative configured lifetime so that the token is not yet expired) and
extracting the subject immediately, with the same secret key and algorithm
configured for both calls, succeeds and returns `s`. -/
theorem c1_token_subject_roundtrip (cfg : Settings) (now : Int) (s : String)
    (hmin : 0 ≤ cfg.jwt_access_token_expire_min) :
    verify_access_token cfg now (create_access_token cfg now s none) = some s := by
  have hexp : ¬ (now + cfg.jwt_access_token_expire_min * 60 < now) := by omega
  simp [verify_access_token, TokenManager.get_user_id_from_token, TokenManager.verify_token,
    create_access_token, TokenManager.create_access_token, jose_encode, jose_decode, hexp]

/-- Witness for C1 at a concrete configuration and subject. -/
theorem c1_token_subject_roundtrip_witness :
    verify_access_token ⟨"k", "HS256", 5⟩ 100
      (create_access_token ⟨"k", "HS256", 5⟩ 100 "alice" none) = some "alice" :=
  c1_token_subject_roundtrip ⟨"k", "HS256", 5⟩ 100 "alice" (by decide)

/-- C2: hashing the same plaintext with two distinct fresh salts yields two
distinct stored hash strings, and each of them verifies the plaintext. -/
theorem c2_fresh_salt_distinct_hashes (p : String) (s1 s2 : Nat) (hne : s1 ≠ s2) :
    hash_password s1 p ≠ hash_password s2 p ∧
      verify_password p (hash_password s1 p) = true ∧
      verify_password p (hash_password s2 p) = true := by
  refine ⟨?_, ?_, ?_⟩
  · simp [hash_password, bcrypt_digest, hne]
  · simp [verify_password, bcrypt_checkpw, hash_password, bcrypt_digest]
  · simp [verify_password, bcrypt_checkpw, hash_password, bcrypt_digest]

/-- Witness for C2 at a concrete plaintext and two concrete salts. -/
theorem c2_fresh_salt_distinct_hashes_witness :
    hash_password 0 "pw" ≠ hash_password 1 "pw" ∧
      verify_password "pw" (hash_password 0 "pw") = true ∧
      verify_password "pw" (hash_password 1 "pw") = true :=
  c2_fresh_salt_distinct_hashes "pw" 0 1 (by decide)

/-- C7: `verify_password` is a total boolean function — a malformed stored
hash yields `false`, any bcrypt-level exception yields `false` (the
`try/except` swallows it), and a wrong password also yields `false`, so a
malformed-hash failure is indistinguishable from a wrong password. -/
theorem c7_verify_password_never_raises (p : String) :
    (∀ raw, verify_password p (StoredHash.malformed raw) = false) ∧
    (∀ h : StoredHash, (bcrypt_checkpw p h).isOk = false → verify_password p h = false) ∧
    (∀ p2 salt, p ≠ p2 → verify_password p (hash_password salt p2) = false) := by
  refine ⟨fun raw => rfl, fun h hko => ?_, fun p2 salt hne => ?_⟩
  · cases h with
    | bcrypt salt pw => simp [bcrypt_checkpw, Except.isOk, Except.toBool] at hko
    | malformed raw => rfl
  · simp [verify_password, bcrypt_checkpw, hash_password, bcrypt_digest, hne]

/-- Witness for C7: a concrete malformed stored hash and a concrete wrong
password both verify to `false`. -/
theorem c7_verify_password_never_raises_witness :
    verify_password "a" (StoredHash.malformed "zz") = false ∧
      verify_password "a" (hash_password 3 "b") = false :=
  ⟨(c7_verify_password_never_raises "a").1 "zz",
    (c7_verify_password_never_raises "a").2.2 "b" 3 (by decide)⟩

/-- C8 counterexample: the claim as stated fails — hashing the one-character
string U+0000 raises: pyca/bcrypt's `hashpw` rejects NUL-containing passwords
with `ValueError`, and `PasswordManager.hash_password` has no `try/except`,
so the call errors instead of succeeding. -/
theorem c8_hash_password_nul_rejected :
    hash_password_call 0 "\x00" = .error BcryptError.nulBytePassword := by
  decide

/-- C8 (amended): for every salt and every input string whose encoding has no
NUL byte, `hash_password` succeeds — the call returns a well-formed stored
hash (no other characters are rejected at this layer), and the result
verifies the password. -/
theorem c8_hash_password_total (salt : Nat) (password : String)
    (hn : has_nul_byte password = false) :
    hash_password_call salt password = .ok (hash_password salt password) ∧
      (hash_password salt password).isWellFormed = true ∧
      verify_password password (hash_password salt password) = true := by
  refine ⟨?_, rfl, ?_⟩
  · simp [hash_password_call, bcrypt_hashpw, hash_password, hn]
  · simp [verify_password, bcrypt_checkpw, hash_password, bcrypt_digest]

/-- Witness for C8 at a concrete NUL-free password (one with punctuation,
digits, and letters) and a concrete salt. -/
theorem c8_hash_password_total_witness :
    hash_password_call 3 "Abc123!@#" = .ok (hash_password 3 "Abc123!@#") ∧
      (hash_password 3 "Abc123!@#").isWellFormed = true ∧
      verify_password "Abc123!@#" (hash_password 3 "Abc123!@#") = true :=
  c8_hash_password_total 3 "Abc123!@#" (by decide)

/-- C3: token-verification failures are uniform — a malformed token, a token
whose signature is not the MAC of its own content under the configured key,
a token issued with `ttl = -1` second, and a token checked under a different
secret key than the issuing one all make `verify_token` and
`verify_access_token` return `none`; both functions are total (`Option`
valued), so no exception reaches the caller. -/
theorem c3_uniform_token_failures (cfg : Settings) (now : Int) :
    (∀ raw, TokenManager.verify_token cfg now (Jwt.malformed raw) = none ∧
      verify_access_token cfg now (Jwt.malformed raw) = none) ∧
    (∀ hd pl sig, sig ≠ JwsSignature.mk hd.alg cfg.jwt_secret_key hd pl →
      TokenManager.verify_token cfg now (Jwt.signed hd pl sig) = none ∧
      verify_access_token cfg now (Jwt.signed hd pl sig) = none) ∧
    (∀ s, TokenManager.verify_token cfg now (create_access_token cfg now s (some (-1))) = none ∧
      verify_access_token cfg now (create_access_token cfg now s (some (-1))) = none) ∧
    (∀ k now2 s delta, k ≠ cfg.jwt_secret_key →
      TokenManager.verify_token { cfg with jwt_secret_key := k } now2
        (create_access_token cfg now s delta) = none ∧
      verify_access_token { cfg with jwt_secret_key := k } now2
        (create_access_token cfg now s delta) = none) := by
  refine ⟨fun raw => ⟨rfl, rfl⟩, fun hd pl sig hsig => ?_, fun s => ?_, ?_⟩
  · have hv : TokenManager.verify_token cfg now (Jwt.signed hd pl sig) = none := by
      simp only [TokenManager.verify_token, jose_decode]
      by_cases halg : hd.alg ∈ [cfg.jwt_algorithm]
      · rw [if_pos halg, if_neg hsig]
      · rw [if_neg halg]
    exact ⟨hv, by simp [verify_access_token, TokenManager.get_user_id_from_token, hv]⟩
  · have hlt : now + (-1) < now := by omega
    have hv : TokenManager.verify_token cfg now (create_access_token cfg now s (some (-1))) =
        none := by
      simp [TokenManager.verify_token, jose_decode, create_access_token,
        TokenManager.create_access_token, jose_encode, hlt]
    exact ⟨hv, by simp [verify_access_token, TokenManager.get_user_id_from_token, hv]⟩
  · intro k now2 s delta hk
    have hk2 : cfg.jwt_secret_key ≠ k := Ne.symm hk
    have hv : TokenManager.verify_token { cfg with jwt_secret_key := k } now2
        (create_access_token cfg now s delta) = none := by
      simp [TokenManager.verify_token, jose_decode, create_access_token,
        TokenManager.create_access_token, jose_encode, hk2]
    exact ⟨hv, by simp [verify_access_token, TokenManager.get_user_id_from_token, hv]⟩

/-- Witness for C3: each failure mode at a concrete token and configuration. -/
theorem c3_uniform_token_failures_witness :
    (TokenManager.verify_token ⟨"k", "HS256", 5⟩ 0 (Jwt.malformed "x") = none) ∧
    (TokenManager.verify_token ⟨"k", "HS256", 5⟩ 0
      (Jwt.signed ⟨"HS256"⟩ ⟨some "a", some 10⟩
        ⟨"HS256", "other", ⟨"HS256"⟩, ⟨some "a", some 10⟩⟩) = none) ∧
    (verify_access_token ⟨"k", "HS256", 5⟩ 0
      (create_access_token ⟨"k", "HS256", 5⟩ 0 "alice" (some (-1))) = none) ∧
    (TokenManager.verify_token ⟨"k2", "HS256", 5⟩ 0
      (create_access_token ⟨"k", "HS256", 5⟩ 0 "alice" none) = none) :=
  ⟨((c3_uniform_token_failures ⟨"k", "HS256", 5⟩ 0).1 "x").1,
    ((c3_uniform_token_failures ⟨"k", "HS256", 5⟩ 0).2.1 ⟨"HS256"⟩ ⟨some "a", some 10⟩
      ⟨"HS256", "other", ⟨"HS256"⟩, ⟨some "a", some 10⟩⟩ (by decide)).1,
    ((c3_uniform_token_failures ⟨"k", "HS256", 5⟩ 0).2.2.1 "alice").2,
    ((c3_uniform_token_failures ⟨"k", "HS256", 5⟩ 0).2.2.2 "k2" 0 "alice" none (by decide)).1⟩

/-- C6: a token whose header declares an algorithm different from the
configured one is rejected by `verify_token` (and hence by
`verify_access_token`), whatever its payload and signature. -/
theorem c6_algorithm_confusion_rejected (cfg : Settings) (now : Int) (hd : JoseHeader)
    (pl : JosePayload) (sig : JwsSignature) (halg : hd.alg ≠ cfg.jwt_algorithm) :
    TokenManager.verify_token cfg now (Jwt.signed hd pl sig) = none ∧
      verify_access_token cfg now (Jwt.signed hd pl sig) = none := by
  have hv : TokenManager.verify_token cfg now (Jwt.signed hd pl sig) = none := by
    simp only [TokenManager.verify_token, jose_decode]
    rw [if_neg (by simp [halg])]
  exact ⟨hv, by simp [verify_access_token, TokenManager.get_user_id_from_token, hv]⟩

/-- Witness for C6: a token claiming algorithm `none-alg` is rejected under a
configuration that expects `HS256`. -/
theorem c6_algorithm_confusion_rejected_witness :
    TokenManager.verify_token ⟨"k", "HS256", 5⟩ 0
        (Jwt.signed ⟨"none-alg"⟩ ⟨some "a", some 10⟩
          ⟨"none-alg", "k", ⟨"none-alg"⟩, ⟨some "a", some 10⟩⟩) = none ∧
      verify_access_token ⟨"k", "HS256", 5⟩ 0
        (Jwt.signed ⟨"none-alg"⟩ ⟨some "a", some 10⟩
          ⟨"none-alg", "k", ⟨"none-alg"⟩, ⟨some "a", some 10⟩⟩) = none :=
  c6_algorithm_confusion_rejected ⟨"k", "HS256", 5⟩ 0 ⟨"none-alg"⟩ ⟨some "a", some 10⟩
    ⟨"none-alg", "k", ⟨"none-alg"⟩, ⟨some "a", some 10⟩⟩ (by decide)

/-- C10: a token correctly signed with the configured key and algorithm, not
expired, but carrying no `sub` claim, decodes successfully in `verify_token`
yet yields `none` from `verify_access_token` — the very same outcome as a
malformed token, so callers cannot tell the two apart. -/
theorem c10_subjectless_token_indistinguishable (cfg : Settings) (now : Int) (d : Int)
    (hd : 0 ≤ d) :
    TokenManager.verify_token cfg now
        (TokenManager.create_access_token cfg now { sub := none } (some d)) =
      some { sub := none, exp := some (now + d) } ∧
    verify_access_token cfg now
        (TokenManager.create_access_token cfg now { sub := none } (some d)) = none ∧
    (∀ raw, verify_access_token cfg now
        (TokenManager.create_access_token cfg now { sub := none } (some d)) =
      verify_access_token cfg now (Jwt.malformed raw)) := by
  have hexp : ¬ (now + d < now) := by omega
  have hv : TokenManager.verify_token cfg now
      (TokenManager.create_access_token cfg now { sub := none } (some d)) =
      some { sub := none, exp := some (now + d) } := by
    simp [TokenManager.verify_token, jose_decode, TokenManager.create_access_token,
      jose_encode, hexp]
  refine ⟨hv, ?_, fun raw => ?_⟩
  · simp [verify_access_token, TokenManager.get_user_id_from_token, hv]
  · have hm : TokenManager.verify_token cfg now (Jwt.malformed raw) = none := rfl
    simp [verify_access_token, TokenManager.get_user_id_from_token, hv, hm]

/-- Witness for C10 at a concrete configuration, time, and lifetime. -/
theorem c10_subjectless_token_indistinguishable_witness :
    TokenManager.verify_token ⟨"k", "HS256", 5⟩ 0
        (TokenManager.create_access_token ⟨"k", "HS256", 5⟩ 0 { sub := none } (some 30)) =
      some { sub := none, exp := some 30 } ∧
    verify_access_token ⟨"k", "HS256", 5⟩ 0
        (TokenManager.create_access_token ⟨"k", "HS256", 5⟩ 0 { sub := none } (some 30)) =
      none :=
  ⟨(c10_subjectless_token_indistinguishable ⟨"k", "HS256", 5⟩ 0 30 (by decide)).1,
    (c10_subjectless_token_indistinguishable ⟨"k", "HS256", 5⟩ 0 30 (by decide)).2.1⟩

/-- C4: login has exactly three outcomes — if the username is unknown or the
password does not verify, the single 401 `bad_credentials_exc` is raised (the
very same exception value in both sub-cases, so they are indistinguishable);
if the credentials verify but the account is disabled, the 403
`disabled_exc`; otherwise the call succeeds and the issued token's subject is
the user's `user_id`. -/
theorem c4_login_trichotomy (cfg : Settings) (now : Int) (db : List User) (u p : String) :
    (get_user_by_username db u = none →
      UserService.login_user cfg now db u p = .error bad_credentials_exc) ∧
    (∀ user, get_user_by_username db u = some user →
      verify_password p user.password_hash = false →
      UserService.login_user cfg now db u p = .error bad_credentials_exc) ∧
    (∀ user, UserService.authenticate_user db u p = some user → user.is_active = false →
      UserService.login_user cfg now db u p = .error disabled_exc) ∧
    (∀ user, UserService.authenticate_user db u p = some user → user.is_active = true →
      0 ≤ cfg.jwt_access_token_expire_min →
      ∃ r, UserService.login_user cfg now db u p = .ok r ∧ r.user = user ∧
        verify_access_token cfg now r.access_token = some user.user_id) := by
  refine ⟨fun hfind => ?_, fun user hfind hverify => ?_, fun user hauth hact => ?_,
    fun user hauth hact hmin => ?_⟩
  · simp [UserService.login_user, UserService.authenticate_user, hfind]
  · simp [UserService.login_user, UserService.authenticate_user, hfind, hverify]
  · simp [UserService.login_user, hauth, hact]
  · have hexp : ¬ (now + cfg.jwt_access_token_expire_min * 60 < now) := by omega
    refine ⟨⟨user,
      create_access_token cfg now user.user_id (some (cfg.jwt_access_token_expire_min * 60)),
      "bearer", cfg.jwt_access_token_expire_min * 60⟩, ?_, rfl, ?_⟩
    · simp [UserService.login_user, hauth, hact]
    · simp [verify_access_token, TokenManager.get_user_id_from_token,
        TokenManager.verify_token, create_access_token, TokenManager.create_access_token,
        jose_encode, jose_decode, hexp]

/-- Witness for C4: unknown username and wrong password both yield exactly
`bad_credentials_exc`, a disabled user yields `disabled_exc`, and a correct
login returns a token whose subject is the user's id. -/
theorem c4_login_trichotomy_witness :
    (UserService.login_user ⟨"k", "HS256", 5⟩ 0 dbEx "bob" "pw1" =
      .error bad_credentials_exc) ∧
    (UserService.login_user ⟨"k", "HS256", 5⟩ 0 dbEx "alice" "bad" =
      .error bad_credentials_exc) ∧
    (UserService.login_user ⟨"k", "HS256", 5⟩ 0 dbEx "carol" "pw2" =
      .error disabled_exc) ∧
    (∃ r, UserService.login_user ⟨"k", "HS256", 5⟩ 0 dbEx "alice" "pw1" = .ok r ∧
      r.user = aliceEx ∧
      verify_access_token ⟨"k", "HS256", 5⟩ 0 r.access_token = some aliceEx.user_id) :=
  ⟨(c4_login_trichotomy ⟨"k", "HS256", 5⟩ 0 dbEx "bob" "pw1").1 (by decide),
    (c4_login_trichotomy ⟨"k", "HS256", 5⟩ 0 dbEx "alice" "bad").2.1 aliceEx
      (by decide) (by decide),
    (c4_login_trichotomy ⟨"k", "HS256", 5⟩ 0 dbEx "carol" "pw2").2.2.1 carolEx
      (by decide) (by decide),
    (c4_login_trichotomy ⟨"k", "HS256", 5⟩ 0 dbEx "alice" "pw1").2.2.2 aliceEx
      (by decide) (by decide) (by decide)⟩

/-- C5: registration rejects an existing username with the 409 pre-check
exception and the store untouched; a uniqueness violation raised by the store
at persist-time is also turned into a 409 conflict with the pending insert
rolled back (store unchanged); both rejections carry the conflict status 409
(the canonical USERNAME_TAKEN outcome); with a fresh username the hashed
record is persisted with `is_active = true`. -/
theorem c5_register_username_taken (salt : Nat) (nid : String) (db : List User)
    (d : UserCreate) :
    ((get_user_by_username db d.username).isSome = true →
      UserService.create_user salt nid db d = (db, .error username_taken_exc)) ∧
    (∀ u : User, (∃ x ∈ db, x.username = u.username) →
      UserService.create_user_persist db u = (db, .error create_failed_exc)) ∧
    (username_taken_exc.status = 409 ∧ create_failed_exc.status = 409) ∧
    (get_user_by_username db d.username = none →
      ∃ u : User, UserService.create_user salt nid db d = (db ++ [u], .ok u) ∧
        u.username = d.username ∧ u.is_active = true ∧
        u.password_hash = hash_password salt d.password ∧ u.timezone = d.timezone ∧
        u.user_id = nid) := by
  refine ⟨fun hfind => ?_, fun u hex => ?_, ⟨rfl, rfl⟩, fun hfind => ?_⟩
  · simp [UserService.create_user, hfind]
  · have hany : db.any (fun x => x.username == u.username) = true := by
      rcases hex with ⟨x, hx, hux⟩
      exact List.any_eq_true.mpr ⟨x, hx, by simp [hux]⟩
    simp [UserService.create_user_persist, db_insert, hany]
  · have hall : ∀ x ∈ db, ¬ (x.username == d.username) = true := by
      have := List.find?_eq_none.mp (show db.find? (fun x => x.username == d.username) = none
        from hfind)
      exact this
    have hany : db.any (fun x => x.username == d.username) = false := by
      rw [List.any_eq_false]
      exact hall
    refine ⟨⟨nid, d.username, hash_password salt d.password, d.timezone, true⟩, ?_,
      rfl, rfl, rfl, rfl, rfl⟩
    simp [UserService.create_user, hfind, UserService.create_user_persist, db_insert, hany]

/-- Witness for C5: registering `alice` again is rejected with the store
unchanged, a persist-time uniqueness violation rolls back to the unchanged
store with a 409, and registering a fresh `bob` appends the hashed record. -/
theorem c5_register_username_taken_witness :
    (UserService.create_user 3 "id9" dbEx ⟨"alice", "pw9", "UTC"⟩ =
      (dbEx, .error username_taken_exc)) ∧
    (UserService.create_user_persist dbEx
        ⟨"id9", "alice", StoredHash.bcrypt 3 "pw9", "UTC", true⟩ =
      (dbEx, .error create_failed_exc)) ∧
    (∃ u : User, UserService.create_user 3 "id9" dbEx ⟨"bob", "pw9", "UTC"⟩ =
        (dbEx ++ [u], .ok u) ∧
      u.username = "bob" ∧ u.is_active = true ∧
      u.password_hash = hash_password 3 "pw9" ∧ u.timezone = "UTC" ∧ u.user_id = "id9") :=
  ⟨(c5_register_username_taken 3 "id9" dbEx ⟨"alice", "pw9", "UTC"⟩).1 (by decide),
    (c5_register_username_taken 3 "id9" dbEx ⟨"alice", "pw9", "UTC"⟩).2.1
      ⟨"id9", "alice", StoredHash.bcrypt 3 "pw9", "UTC", true⟩ (by decide),
    (c5_register_username_taken 3 "id9" dbEx ⟨"bob", "pw9", "UTC"⟩).2.2.2 (by decide)⟩

/-- Membership frame for the commit's row replacement: a row with a different
primary key is still in the store after the update is written. -/
theorem mem_update_map (db : List User) (uid : String) (u2 : User) (x : User)
    (hx : x ∈ db) (hne : x.user_id ≠ uid) :
    x ∈ db.map (fun y => if y.user_id == uid then u2 else y) := by
  have hxid : (x.user_id == uid) = false := by simpa using hne
  have hmem := List.mem_map_of_mem (fun y => if y.user_id == uid then u2 else y) hx
  simpa [hxid] using hmem

/-- C9 counterexample: the claim as stated fails — updating the existing user
`id1` with an explicitly-null `timezone` (which `model_dump(exclude_unset=True)`
retains) does not apply the field or succeed: the NULL write violates the
`nullable=False` column at commit, and the call yields the 400
`update_failed_exc` — an outcome distinct from success and from NOT_FOUND —
with the store rolled back unchanged. -/
theorem c9_null_timezone_update_fails :
    UserService.update_user dbEx "id1" ⟨FieldUpdate.null⟩ =
        (dbEx, .error update_failed_exc) ∧
      update_failed_exc.status = 400 ∧ update_failed_exc ≠ not_found_exc := by
  decide

/-- C9 (amended): updating an unknown user id yields the 404 exception and
leaves the store unchanged; updating an existing user with an explicitly-null
`timezone` hits the store's NOT NULL constraint at commit and yields the 400
exception with the store rolled back unchanged; any other update returns a
record whose `user_id`, `username`, `password_hash`, and `is_active` are
untouched and whose `timezone` is replaced exactly when the request supplies
a value (otherwise kept), while every other user (different id) stays in the
store. -/
theorem c9_update_only_supplied_fields (db : List User) (uid : String) (upd : UserUpdate) :
    (get_user_by_id db uid = none →
      UserService.update_user db uid upd = (db, .error not_found_exc)) ∧
    (∀ user, get_user_by_id db uid = some user → upd.timezone = FieldUpdate.null →
      UserService.update_user db uid upd = (db, .error update_failed_exc)) ∧
    (∀ user, get_user_by_id db uid = some user → upd.timezone ≠ FieldUpdate.null →
      ∃ u2, (UserService.update_user db uid upd).2 = .ok u2 ∧
        u2.user_id = user.user_id ∧ u2.username = user.username ∧
        u2.password_hash = user.password_hash ∧ u2.is_active = user.is_active ∧
        u2.timezone = (match upd.timezone with
          | .value tz => tz
          | _ => user.timezone) ∧
        (∀ x ∈ db, x.user_id ≠ uid → x ∈ (UserService.update_user db uid upd).1)) ∧
    (not_found_exc.status = 404 ∧ update_failed_exc.status = 400) := by
  refine ⟨fun hfind => ?_, fun user hfind htz => ?_, fun user hfind htz => ?_, rfl, rfl⟩
  · simp [UserService.update_user, hfind]
  · simp [UserService.update_user, hfind, db_commit_update, written_timezone, htz]
  · cases hcase : upd.timezone with
    | null => exact absurd hcase htz
    | unset =>
      have hrun : UserService.update_user db uid upd =
          (db.map (fun y =>
            if y.user_id == uid then { user with timezone := user.timezone } else y),
            .ok { user with timezone := user.timezone }) := by
        simp [UserService.update_user, hfind, db_commit_update, written_timezone, hcase]
      refine ⟨{ user with timezone := user.timezone }, by rw [hrun], rfl, rfl, rfl, rfl,
        by simp [hcase], fun x hx hne => ?_⟩
      rw [hrun]
      exact mem_update_map db uid _ x hx hne
    | value tz =>
      have hrun : UserService.update_user db uid upd =
          (db.map (fun y => if y.user_id == uid then { user with timezone := tz } else y),
            .ok { user with timezone := tz }) := by
        simp [UserService.update_user, hfind, db_commit_update, written_timezone, hcase]
      refine ⟨{ user with timezone := tz }, by rw [hrun], rfl, rfl, rfl, rfl,
        by simp [hcase], fun x hx hne => ?_⟩
      rw [hrun]
      exact mem_update_map db uid _ x hx hne

/-- Witness for C9: an unknown id yields 404 with the store unchanged; an
explicitly-null timezone on alice yields the 400 with the store unchanged;
updating alice's timezone to a value keeps her identity, hash, and active
flag, and keeps carol in the store. -/
theorem c9_update_only_supplied_fields_witness :
    (UserService.update_user dbEx "zzz" ⟨FieldUpdate.value "Asia/Shanghai"⟩ =
      (dbEx, .error not_found_exc)) ∧
    (UserService.update_user dbEx "id1" ⟨FieldUpdate.null⟩ =
      (dbEx, .error update_failed_exc)) ∧
    (∃ u2, (UserService.update_user dbEx "id1" ⟨FieldUpdate.value "Asia/Shanghai"⟩).2 =
        .ok u2 ∧
      u2.user_id = aliceEx.user_id ∧ u2.username = aliceEx.username ∧
      u2.password_hash = aliceEx.password_hash ∧ u2.is_active = aliceEx.is_active ∧
      u2.timezone = "Asia/Shanghai" ∧
      (∀ x ∈ dbEx, x.user_id ≠ "id1" →
        x ∈ (UserService.update_user dbEx "id1" ⟨FieldUpdate.value "Asia/Shanghai"⟩).1)) :=
  ⟨(c9_update_only_supplied_fields dbEx "zzz" ⟨FieldUpdate.value "Asia/Shanghai"⟩).1
      (by decide),
    (c9_update_only_supplied_fields dbEx "id1" ⟨FieldUpdate.null⟩).2.1 aliceEx
      (by decide) rfl,
    (c9_update_only_supplied_fields dbEx "id1" ⟨FieldUpdate.value "Asia/Shanghai"⟩).2.2.1
      aliceEx (by decide) (by decide)⟩

end Mist
